import Mathlib

/-!
Shallow embedding of `src/ledaps/ledapsAncSrc/updatetoms.py`, the TOMS ozone
data acquisition script, together with theorems checking the specification
claims about it.  Every definition mirrors the corresponding Python function;
comments give the source lines.  Machine integers are modelled with `Nat`
(Python integers are arbitrary precision, so no wrap-around is needed), and
fallible code returns `Option` or `Except`.
-/

namespace UpdateToms

/-- Global status codes (updatetoms.py lines 25-27). -/
def ERROR : Nat := 1

def SUCCESS : Nat := 0

def START_YEAR : Nat := 1978

/-- Server and instrument base paths (DatasourceResolver, lines 50-54). -/
def SERVER_URL : String := "https://acd-ext.gsfc.nasa.gov/anonftp/toms"

def NIMBUS : String := "/nimbus7/data/ozone/Y"

def EARTHPROBE : String := "/eptoms/data/ozone/Y"

def METEOR3 : String := "/meteor3/data/ozone/Y"

def OMI : String := "/omi/data/ozone/Y"

/-- isLeapYear (lines 224-234), a literal translation of the nested ifs. -/
def isLeapYear (year : Nat) : Bool :=
  if year % 4 = 0 then
    if year % 100 = 0 then
      if year % 400 = 0 then true else false
    else true
  else false

/-- Modelled from the spec: a year is a leap year if divisible by 4, except
centuries not divisible by 400.  Used to compare `isLeapYear` against the
wording of the specification. -/
def leapSpec (year : Nat) : Bool :=
  year % 4 = 0 && (year % 100 != 0 || year % 400 = 0)

/-- Month lengths of the Gregorian calendar, the data underlying
`datetime.datetime(year, 1, 1) + datetime.timedelta(doy - 1)` (line 183). -/
def monthLengths (leap : Bool) : List Nat :=
  [31, if leap then 29 else 28, 31, 30, 31, 30, 31, 31, 30, 31, 30, 31]

def daysInYear (year : Nat) : Nat :=
  if isLeapYear year then 366 else 365

/-- Walk the month-length table: given the first month number, the remaining
month lengths and a 1-based day offset, return (month, day). -/
def monthDayOf : Nat → List Nat → Nat → Nat × Nat
  | m, [], d => (m, d)
  | m, ml :: rest, d => if d ≤ ml then (m, d) else monthDayOf (m + 1) rest (d - ml)

/-- Fuelled form of the day-of-year to calendar-date conversion performed by
`datetime.datetime(year, 1, 1) + datetime.timedelta(doy - 1)` in the source
(lines 183 and 468).  A day-of-year larger than the length of the year rolls
over into the following year, exactly as the timedelta addition does.  The
fuel argument is instantiated with `doy` itself, which suffices because every
roll-over consumes at least 365 days. -/
def dateOfDoyGo : Nat → Nat → Nat → Nat × Nat × Nat
  | 0, year, doy => (year, 1, doy)
  | fuel + 1, year, doy =>
    if daysInYear year < doy then
      dateOfDoyGo fuel (year + 1) (doy - daysInYear year)
    else
      let p := monthDayOf 1 (monthLengths (isLeapYear year)) doy
      (year, p.1, p.2)

/-- Calendar date (year, month, day) of the given 1-based day-of-year. -/
def dateOfDoy (year doy : Nat) : Nat × Nat × Nat :=
  dateOfDoyGo doy year doy

/-- Zero padding used by strftime: two-digit month and day fields. -/
def pad2 (n : Nat) : String :=
  if n < 10 then "0" ++ toString n else toString n

/-- Zero padding to four digits, for the strftime year field. -/
def pad4 (n : Nat) : String :=
  if n < 10 then "000" ++ toString n
  else if n < 100 then "00" ++ toString n
  else if n < 1000 then "0" ++ toString n
  else toString n

/-- Zero padding to three digits, for the "%03d" day-of-year field used in
output filenames (line 507). -/
def pad3 (n : Nat) : String :=
  if n < 10 then "00" ++ toString n
  else if n < 100 then "0" ++ toString n
  else toString n

/-- `currday.strftime("%Y%m%d")` (lines 184 and 469). -/
def dateStr (year doy : Nat) : String :=
  let t := dateOfDoy year doy
  pad4 t.1 ++ pad2 t.2.1 ++ pad2 t.2.2

/-- The date as the number YYYYMMDD, used to state that URL dates are
strictly increasing. -/
def dateNum (year doy : Nat) : Nat :=
  let t := dateOfDoy year doy
  t.1 * 10000 + t.2.1 * 100 + t.2.2

/-- The (month, day) part of a date packed as the number MMDD, for a year of
the given leap kind. -/
def mdCode (leap : Bool) (doy : Nat) : Nat :=
  let p := monthDayOf 1 (monthLengths leap) doy
  p.1 * 100 + p.2

/-- Per-instrument daily filename (buildURL lines 188-199).  The final else
branch of the source logs through an undefined name and then has an
unreachable `return None`; either way no filename is produced, which the
`none` value models.  The function is only ever called with the four
recognized type strings. -/
def instFileName (type : String) (datestr : String) : Option String :=
  if type = "NIMBUS" then some ("L3_ozone_n7t_" ++ datestr ++ ".txt")
  else if type = "EARTHPROBE" then some ("L3_ozone_epc_" ++ datestr ++ ".txt")
  else if type = "METEOR3" then some ("L3_ozone_m3t_" ++ datestr ++ ".txt")
  else if type = "OMI" then some ("L3_ozone_omi_" ++ datestr ++ ".txt")
  else none

/-- The loop of DatasourceResolver.buildURL (lines 177-206), iterating day
numbers `d, d+1, ..., d+rem-1` and collecting one URL per day.  An
unrecognized instrument type aborts the whole call, as in the source. -/
def buildURLFrom (type serverUrl basePath : String) (year : Nat) : Nat → Nat → Option (List String)
  | _d, 0 => some []
  | d, rem + 1 =>
    match instFileName type (dateStr year d) with
    | none => none
    | some name =>
      match buildURLFrom type serverUrl basePath year (d + 1) rem with
      | none => none
      | some rest => some ((serverUrl ++ basePath ++ toString year ++ "/" ++ name) :: rest)

/-- DatasourceResolver.buildURL (lines 177-206): URLs for days 1..DOY. -/
def buildURL (type serverUrl basePath : String) (year DOY : Nat) : Option (List String) :=
  buildURLFrom type serverUrl basePath year 1 DOY

/-- The four recognized instrument type strings with their filename codes. -/
def recognizedTypes : List (String × String) :=
  [("NIMBUS", "n7t"), ("EARTHPROBE", "epc"), ("METEOR3", "m3t"), ("OMI", "omi")]

/-- The URL list `buildURL` produces for a recognized instrument, written
out explicitly: one URL per day of year 1..DOY in order. -/
def urlsFor (code basePath : String) (year DOY : Nat) : List String :=
  (List.range DOY).map fun i =>
    SERVER_URL ++ basePath ++ toString year ++ "/" ++
      ("L3_ozone_" ++ code ++ "_" ++ dateStr year (1 + i) ++ ".txt")

/-- DatasourceResolver.resolve (lines 78-155): pick the instrument(s)
covering the given year and build their URL lists, primary first followed by
the backup list when one is defined. -/
def resolve (year DOY : Nat) : Option (List String) :=
  if 1978 ≤ year ∧ year < 1991 then
    match buildURL "NIMBUS" SERVER_URL NIMBUS year DOY with
    | none => none
    | some dsList => some dsList
  else if 1991 ≤ year ∧ year < 1994 then
    match buildURL "METEOR3" SERVER_URL METEOR3 year DOY with
    | none => none
    | some dsList =>
      match buildURL "NIMBUS" SERVER_URL NIMBUS year DOY with
      | none => some dsList
      | some dsList2 => some (dsList ++ dsList2)
  else if year = 1994 then
    match buildURL "METEOR3" SERVER_URL METEOR3 year DOY with
    | none => none
    | some dsList => some dsList
  else if 1996 ≤ year ∧ year < 2004 then
    match buildURL "EARTHPROBE" SERVER_URL EARTHPROBE year DOY with
    | none => none
    | some dsList => some dsList
  else if 2004 ≤ year ∧ year < 2006 then
    match buildURL "OMI" SERVER_URL OMI year DOY with
    | none => none
    | some dsList =>
      match buildURL "EARTHPROBE" SERVER_URL EARTHPROBE year DOY with
      | none => some dsList
      | some dsList2 => some (dsList ++ dsList2)
  else if 2006 ≤ year then
    match buildURL "OMI" SERVER_URL OMI year DOY with
    | none => none
    | some dsList => some dsList
  else none

/-- Does `txt` start here?  Part of matching the trailing `txt` of the
regular expressions of resolveFile (lines 322-325). -/
def txtHere : List Char → Bool
  | 't' :: 'x' :: 't' :: _ => true
  | _ => false

/-- Match the regex fragment `\d*.txt` at the head of the character list:
zero or more digits, one arbitrary character (the unescaped dot) and the
literal `txt`.  Filenames contain no newline, so the dot is modelled as
matching any character. -/
def digitsDotTxt : List Char → Bool
  | [] => false
  | c :: rest => txtHere rest || (c.isDigit && digitsDotTxt rest)

/-- Match `<code>\d*.txt` at the head of the character list. -/
def tagHere (code : List Char) (s : List Char) : Bool :=
  if s.take code.length = code then digitsDotTxt (s.drop code.length) else false

/-- Unanchored regex search, trying every start position; together with
`tagHere` this decides `re.search` for the patterns of lines 322-325, whose
leading `.*` does not change which strings match. -/
def searchTag (code : List Char) : List Char → Bool
  | [] => tagHere code []
  | c :: rest => tagHere code (c :: rest) || searchTag code rest

def omiMatch (s : String) : Bool := searchTag "_omi_".toList s.toList

def epcMatch (s : String) : Bool := searchTag "_epc_".toList s.toList

def m3tMatch (s : String) : Bool := searchTag "_m3t_".toList s.toList

def n7tMatch (s : String) : Bool := searchTag "_n7t_".toList s.toList

/-- resolveFile (lines 321-347): four sequential scans of the file list, in
the priority order OMI, EARTHPROBE, METEOR3, NIMBUS7, each returning the
first file whose name matches the corresponding pattern. -/
def resolveFile (fileList : List String) : Option String :=
  match fileList.find? omiMatch with
  | some myfile => some myfile
  | none =>
    match fileList.find? epcMatch with
    | some myfile => some myfile
    | none =>
      match fileList.find? m3tMatch with
      | some myfile => some myfile
      | none =>
        match fileList.find? n7tMatch with
        | some myfile => some myfile
        | none => none

/-- The per-day candidate dispatch of getTomsData (lines 478-495): no file
means the day is skipped, exactly one file is taken unconditionally
(`fileList[0]`), and more than one file goes through resolveFile. -/
def chooseDaily (fileList : List String) : Option String :=
  if fileList.length = 0 then none
  else if fileList.length = 1 then fileList.head?
  else resolveFile fileList

/-- The four tag matchers in priority order, for the specification-side
description of daily file resolution. -/
def tagMatchers : List (String → Bool) :=
  [omiMatch, epcMatch, m3tMatch, n7tMatch]

/-- Modelled from the spec: select the highest-priority recognized
instrument present among the candidates, then return the first candidate in
file-list order matching it; fail when no candidate has a recognized tag. -/
def resolveFileSpec (fileList : List String) : Option String :=
  match tagMatchers.find? (fun p => fileList.any p) with
  | none => none
  | some p => fileList.find? p

/-- Python exceptions that the embedded code can raise. -/
inductive PyExc where
  | indexError
  | nameError
deriving DecidableEq

/-- Python `str.split(sep)` for a single-character separator: a literal
translation producing at least one field, with empty fields kept. -/
def splitFields (sep : Char) : List Char → List (List Char)
  | [] => [[]]
  | c :: rest =>
    match splitFields sep rest with
    | [] => if c = sep then [[], []] else [[c]]
    | f :: fs => if c = sep then [] :: f :: fs else (c :: f) :: fs

/-- getOzoneSource (lines 282-304).  `parts[2]` raises IndexError when the
split yields fewer than three fields.  In the final else branch the source
calls `logger.warn` where no name `logger` is defined in any enclosing
scope, so a NameError is raised and the `return None` on line 301 is never
reached; the `Except.ok none` outcome therefore exists in the model only to
show it is never produced. -/
def getOzoneSource (filename : String) : Except PyExc (Option String) :=
  if h : 2 < (splitFields '_' filename.toList).length then
    if (splitFields '_' filename.toList).get ⟨2, h⟩ = "m3t".toList then
      Except.ok (some "METEOR3")
    else if (splitFields '_' filename.toList).get ⟨2, h⟩ = "epc".toList then
      Except.ok (some "EARTHPROBE")
    else if (splitFields '_' filename.toList).get ⟨2, h⟩ = "n7t".toList then
      Except.ok (some "NIMBUS7")
    else if (splitFields '_' filename.toList).get ⟨2, h⟩ = "omi".toList then
      Except.ok (some "OMI")
    else Except.error PyExc.nameError
  else Except.error PyExc.indexError

/-- Outcome of the per-day body of the loop of getTomsData
(lines 466-521) for one day of the year. -/
inductive DayStep where
  | skipNoData
  | skipUnresolved
  | skipBadSource
  | convertStep (tomsfile : String) (ozoneSource : String)
  | raised (e : PyExc)
deriving DecidableEq

/-- The per-day body of getTomsData (lines 478-515) up to the invocation of
the converter: candidate dispatch, then ozone source classification.
`raised` means an exception propagates out of getTomsData, terminating the
script. -/
def processDay (fileList : List String) : DayStep :=
  if fileList.length = 0 then DayStep.skipNoData
  else
    match chooseDaily fileList with
    | none => DayStep.skipUnresolved
    | some tomsfile =>
      match getOzoneSource tomsfile with
      | Except.error e => DayStep.raised e
      | Except.ok none => DayStep.skipBadSource
      | Except.ok (some src) => DayStep.convertStep tomsfile src

/-- Observable events of the download of one URL (downloadToms,
lines 398-417): an invocation of the retrieval tool numbered by attempt, a
fixed sleep, or the final warning. -/
inductive WgetEv where
  | call (attempt : Nat)
  | sleep (secs : Nat)
  | warn
deriving DecidableEq

/-- The retry while-loop of downloadToms (lines 406-412):
`while ((retry_count <= 5) and (retval))`, each iteration sleeping 60
seconds, re-invoking the tool and incrementing the count.  `succeeds n`
tells whether the invocation numbered `n` succeeds.  Returns the emitted
events and the final failure flag.  The fuel starts at 5, one unit per
possible iteration at counts 1..5, so it never cuts the loop short. -/
def retryLoop (succeeds : Nat → Bool) : Nat → Nat → Bool → List WgetEv × Bool
  | _rc, 0, failed => ([], failed)
  | rc, fuel + 1, failed =>
    if rc ≤ 5 ∧ failed = true then
      let rest := retryLoop succeeds (rc + 1) fuel (!(succeeds rc))
      (WgetEv.sleep 60 :: WgetEv.call rc :: rest.1, rest.2)
    else ([], failed)

/-- Events of downloading a single URL (lines 398-416): the initial
invocation, then on failure the retry loop, then a warning when the final
attempt still failed. -/
def urlEvents (succeeds : Nat → Bool) : List WgetEv :=
  if succeeds 0 then [WgetEv.call 0]
  else
    let r := retryLoop succeeds 1 5 true
    WgetEv.call 0 :: (r.1 ++ (if r.2 then [WgetEv.warn] else []))

/-- The event list of a URL whose every retrieval attempt fails. -/
def failTrace : List WgetEv :=
  [WgetEv.call 0,
   WgetEv.sleep 60, WgetEv.call 1,
   WgetEv.sleep 60, WgetEv.call 2,
   WgetEv.sleep 60, WgetEv.call 3,
   WgetEv.sleep 60, WgetEv.call 4,
   WgetEv.sleep 60, WgetEv.call 5,
   WgetEv.warn]

def isCallEv : WgetEv → Bool
  | WgetEv.call _ => true
  | _ => false

/-- The `for url in urlList` loop of downloadToms (lines 398-417): every URL
is attempted, in order, regardless of failures of earlier ones. -/
def downloadLoop (urls : List String) (succeeds : String → Nat → Bool) :
    List (String × List WgetEv) :=
  urls.map fun u => (u, urlEvents (succeeds u))

/-- downloadToms (lines 368-418) reduced to its control flow: resolve the
URL list (ERROR when the year has no coverage), otherwise attempt every URL
and return SUCCESS unconditionally.  Directory bookkeeping has no effect on
the returned status and is omitted. -/
def downloadTomsRun (year DOY : Nat) (succeeds : String → Nat → Bool) :
    Nat × List (String × List WgetEv) :=
  match resolve year DOY with
  | none => (ERROR, [])
  | some urls => (SUCCESS, downloadLoop urls succeeds)

/-- Filesystem actions of the conversion step of getTomsData. -/
inductive FsAct where
  | remove (path : String)
  | exec (cmd : String)
deriving DecidableEq

/-- `"%s/TOMS_%d%03d.hdf" % (outputDir, year, doy)` (line 507): the
canonical output filename, a function of the output directory, the year and
the zero-padded day-of-year only. -/
def fullOutputName (outputDir : String) (year doy : Nat) : String :=
  outputDir ++ "/TOMS_" ++ toString year ++ pad3 doy ++ ".hdf"

/-- The conversion step of getTomsData (lines 505-514): remove a
pre-existing output file of the canonical name, then invoke the converter.
`outExists` abstracts the `os.path.isfile` test; `os.path.join` is written
out for a directory without a trailing slash. -/
def convertActs (outputDir dloaddir tomsfile ozoneSource : String)
    (year doy : Nat) (outExists : Bool) : List FsAct :=
  let fullOutputPath := fullOutputName outputDir year doy
  let fullInputPath := dloaddir ++ "/" ++ tomsfile
  (if outExists then [FsAct.remove fullOutputPath] else []) ++
    [FsAct.exec ("convert_ozone " ++ fullInputPath ++ " " ++ fullOutputPath
      ++ " " ++ ozoneSource)]

/-- Effect of the conversion step on the set of files in the output
directory, modelled as a duplicate-free listing: the canonical output name
is removed when present (line 509-510), then written anew by the converter
when it succeeds. -/
def applyDay (files : List String) (outputDir : String) (year doy : Nat)
    (convOk : Bool) : List String :=
  let p := fullOutputName outputDir year doy
  let removed := files.filter fun f => f ≠ p
  if convOk then removed ++ [p] else removed

/-- The year-range selection of main (lines 596-611): --today trumps
--quarterly, which trumps the explicit start/end years.  Years are kept as
integers since the most-recent mode subtracts one. -/
def selectYears (syear eyear : Int) (today quarterly : Bool)
    (nowYear nowDoy : Nat) : Int × Int :=
  if today then
    if nowDoy ≤ 31 then ((nowYear : Int) - 1, (nowYear : Int))
    else ((nowYear : Int), (nowYear : Int))
  else if quarterly then ((START_YEAR : Int), (nowYear : Int))
  else (syear, eyear)

/-- The day loop of getTomsData (lines 466-521), iterating day-of-year
`d, d+1, ..., d+rem-1`.  `staged doy` is the directory listing restricted
to the files matching that day, the only filesystem input the loop branches
on.  Warned-and-skipped days and converter failures do not affect control
flow; an exception raised by getOzoneSource propagates and aborts the whole
loop, exactly as in the source. -/
def daysRun (staged : Nat → List String) : Nat → Nat → Except PyExc Unit
  | _d, 0 => Except.ok ()
  | d, rem + 1 =>
    match processDay (staged d) with
    | DayStep.raised e => Except.error e
    | _ => daysRun staged (d + 1) rem

/-- getTomsData (lines 437-529) reduced to its status and exceptions: the
day bound of lines 442-449 (current day-of-year when processing the current
year, else the length of the year), ERROR when the download step finds no
coverage (lines 453-456), otherwise the per-day loop followed by SUCCESS.
A negative year is clamped to 0 by toNat; like every year before 1978 it
resolves to no coverage, so the clamp changes no observable outcome and the
day loop is never reached for such years. -/
def getTomsDataRun (nowYear nowDoy : Nat) (year : Int)
    (staged : Nat → List String) : Except PyExc Nat :=
  let dayBound := if year = (nowYear : Int) then nowDoy else daysInYear year.toNat
  match resolve year.toNat dayBound with
  | none => Except.ok ERROR
  | some _ =>
    match daysRun staged 1 dayBound with
    | Except.error e => Except.error e
    | Except.ok _ => Except.ok SUCCESS

/-- `range(syear, eyear + 1)` of line 614: the processed years in ascending
order, empty when the end year precedes the start year. -/
def yearList (syear eyear : Int) : List Int :=
  (List.range (eyear + 1 - syear).toNat).map fun i => syear + i

/-- The per-year loop of main (lines 614-620): an ERROR status from a year
only produces a warning and the loop continues; an exception raised inside
getTomsData propagates and aborts the program. -/
def runYears (step : Int → Except PyExc Nat) : List Int → Except PyExc Unit
  | [] => Except.ok ()
  | y :: rest =>
    match step y with
    | Except.error e => Except.error e
    | Except.ok _status => runYears step rest

/-- main (lines 558-623): the argument check (lines 581-585), the
environment check (lines 588-591), the year-range selection, then the
per-year loop, ending in SUCCESS when no exception escaped a year.
`Except.error` models an exception propagating out of main, which the
`sys.exit(main())` of line 633 turns into a traceback and a failure exit
of the process.  `staged year doy` abstracts the download directory
contents per day. -/
def mainFn (syear eyear : Int) (today quarterly : Bool)
    (ancdir : Option String) (nowYear nowDoy : Nat)
    (staged : Int → Nat → List String) :
    Except PyExc (Nat × Option (Int × Int)) :=
  if today = false ∧ quarterly = false ∧ (syear = 0 ∨ eyear = 0) then
    Except.ok (ERROR, none)
  else
    match ancdir with
    | none => Except.ok (ERROR, none)
    | some _ =>
      let yrs := selectYears syear eyear today quarterly nowYear nowDoy
      match runYears (fun y => getTomsDataRun nowYear nowDoy y (staged y))
          (yearList yrs.1 yrs.2) with
      | Except.error e => Except.error e
      | Except.ok _ => Except.ok (SUCCESS, some yrs)

/-- Days contained in the first `m` months of a year of the given leap
kind. -/
def cumDays (leap : Bool) (m : Nat) : Nat :=
  ((monthLengths leap).take m).sum

/-- Correctness of the day-of-year to (month, day) conversion within one
year: month in 1..12, day within the month, and the days of the preceding
months plus the day reconstitute the day-of-year. -/
def doyDateOk (leap : Bool) (doy : Nat) : Bool :=
  let p := monthDayOf 1 (monthLengths leap) doy
  decide (1 ≤ p.1) && decide (p.1 ≤ 12) && decide (1 ≤ p.2) &&
    decide (p.2 ≤ (monthLengths leap).getD (p.1 - 1) 0) &&
    decide (cumDays leap (p.1 - 1) + p.2 = doy)

theorem instFileName_rec (type code : String)
    (h : (type, code) ∈ recognizedTypes) (ds : String) :
    instFileName type ds = some ("L3_ozone_" ++ code ++ "_" ++ ds ++ ".txt") := by
  fin_cases h <;> rfl

theorem buildURLFrom_rec (type code : String) (h : (type, code) ∈ recognizedTypes)
    (s b : String) (year : Nat) (rem : Nat) : ∀ d : Nat,
    buildURLFrom type s b year d rem =
      some ((List.range rem).map fun i =>
        s ++ b ++ toString year ++ "/" ++
          ("L3_ozone_" ++ code ++ "_" ++ dateStr year (d + i) ++ ".txt")) := by
  induction rem with
  | zero => intro d; simp [buildURLFrom]
  | succ n ih =>
    intro d
    rw [buildURLFrom, instFileName_rec type code h, ih (d + 1)]
    simp only [List.range_succ_eq_map, List.map_cons, List.map_map, Nat.add_zero]
    congr 1
    congr 1
    apply List.map_congr_left
    intro i _
    have hadd : d + 1 + i = d + (i + 1) := by omega
    simp [Function.comp, hadd]

theorem buildURL_rec (type code : String) (h : (type, code) ∈ recognizedTypes)
    (s b : String) (year DOY : Nat) :
    buildURL type s b year DOY =
      some ((List.range DOY).map fun i =>
        s ++ b ++ toString year ++ "/" ++
          ("L3_ozone_" ++ code ++ "_" ++ dateStr year (1 + i) ++ ".txt")) :=
  buildURLFrom_rec type code h s b year DOY 1

/-- The coverage table of DatasourceResolver.resolve, fully evaluated. -/
theorem resolveTable (year DOY : Nat) :
    (1978 ≤ year → year ≤ 1990 →
      resolve year DOY = some (urlsFor "n7t" NIMBUS year DOY)) ∧
    (1991 ≤ year → year ≤ 1993 →
      resolve year DOY =
        some (urlsFor "m3t" METEOR3 year DOY ++ urlsFor "n7t" NIMBUS year DOY)) ∧
    (year = 1994 → resolve year DOY = some (urlsFor "m3t" METEOR3 year DOY)) ∧
    (1996 ≤ year → year ≤ 2003 →
      resolve year DOY = some (urlsFor "epc" EARTHPROBE year DOY)) ∧
    (2004 ≤ year → year ≤ 2005 →
      resolve year DOY =
        some (urlsFor "omi" OMI year DOY ++ urlsFor "epc" EARTHPROBE year DOY)) ∧
    (2006 ≤ year → resolve year DOY = some (urlsFor "omi" OMI year DOY)) ∧
    (year = 1995 ∨ year < 1978 → resolve year DOY = none) := by
  refine ⟨?_, ?_, ?_, ?_, ?_, ?_, ?_⟩
  · intro ha hb
    unfold resolve
    rw [if_pos (show 1978 ≤ year ∧ year < 1991 by omega)]
    rw [buildURL_rec "NIMBUS" "n7t" (by decide) SERVER_URL NIMBUS year DOY]
    rfl
  · intro ha hb
    unfold resolve
    rw [if_neg (show ¬(1978 ≤ year ∧ year < 1991) by omega)]
    rw [if_pos (show 1991 ≤ year ∧ year < 1994 by omega)]
    rw [buildURL_rec "METEOR3" "m3t" (by decide) SERVER_URL METEOR3 year DOY]
    rw [buildURL_rec "NIMBUS" "n7t" (by decide) SERVER_URL NIMBUS year DOY]
    rfl
  · intro ha
    unfold resolve
    rw [if_neg (show ¬(1978 ≤ year ∧ year < 1991) by omega)]
    rw [if_neg (show ¬(1991 ≤ year ∧ year < 1994) by omega)]
    rw [if_pos (show year = 1994 by omega)]
    rw [buildURL_rec "METEOR3" "m3t" (by decide) SERVER_URL METEOR3 year DOY]
    rfl
  · intro ha hb
    unfold resolve
    rw [if_neg (show ¬(1978 ≤ year ∧ year < 1991) by omega)]
    rw [if_neg (show ¬(1991 ≤ year ∧ year < 1994) by omega)]
    rw [if_neg (show ¬(year = 1994) by omega)]
    rw [if_pos (show 1996 ≤ year ∧ year < 2004 by omega)]
    rw [buildURL_rec "EARTHPROBE" "epc" (by decide) SERVER_URL EARTHPROBE year DOY]
    rfl
  · intro ha hb
    unfold resolve
    rw [if_neg (show ¬(1978 ≤ year ∧ year < 1991) by omega)]
    rw [if_neg (show ¬(1991 ≤ year ∧ year < 1994) by omega)]
    rw [if_neg (show ¬(year = 1994) by omega)]
    rw [if_neg (show ¬(1996 ≤ year ∧ year < 2004) by omega)]
    rw [if_pos (show 2004 ≤ year ∧ year < 2006 by omega)]
    rw [buildURL_rec "OMI" "omi" (by decide) SERVER_URL OMI year DOY]
    rw [buildURL_rec "EARTHPROBE" "epc" (by decide) SERVER_URL EARTHPROBE year DOY]
    rfl
  · intro ha
    unfold resolve
    rw [if_neg (show ¬(1978 ≤ year ∧ year < 1991) by omega)]
    rw [if_neg (show ¬(1991 ≤ year ∧ year < 1994) by omega)]
    rw [if_neg (show ¬(year = 1994) by omega)]
    rw [if_neg (show ¬(1996 ≤ year ∧ year < 2004) by omega)]
    rw [if_neg (show ¬(2004 ≤ year ∧ year < 2006) by omega)]
    rw [if_pos (show 2006 ≤ year by omega)]
    rw [buildURL_rec "OMI" "omi" (by decide) SERVER_URL OMI year DOY]
    rfl
  · intro ha
    rcases ha with ha | ha <;>
    · unfold resolve
      rw [if_neg (show ¬(1978 ≤ year ∧ year < 1991) by omega)]
      rw [if_neg (show ¬(1991 ≤ year ∧ year < 1994) by omega)]
      rw [if_neg (show ¬(year = 1994) by omega)]
      rw [if_neg (show ¬(1996 ≤ year ∧ year < 2004) by omega)]
      rw [if_neg (show ¬(2004 ≤ year ∧ year < 2006) by omega)]
      rw [if_neg (show ¬(2006 ≤ year) by omega)]

/-- C1: coverage resolution follows the fixed year table — NIMBUS7 only for
1978-1990, METEOR3 then NIMBUS7 backup for 1991-1993, METEOR3 only for 1994,
EARTHPROBE only for 1996-2003, OMI then EARTHPROBE backup for 2004-2005, OMI
only for every year at least 2006, and no coverage (None, not an error) for
1995 or any year before 1978. -/
theorem claim_C1 (year DOY : Nat) :
    (1978 ≤ year → year ≤ 1990 →
      resolve year DOY = some (urlsFor "n7t" NIMBUS year DOY)) ∧
    (1991 ≤ year → year ≤ 1993 →
      resolve year DOY =
        some (urlsFor "m3t" METEOR3 year DOY ++ urlsFor "n7t" NIMBUS year DOY)) ∧
    (year = 1994 → resolve year DOY = some (urlsFor "m3t" METEOR3 year DOY)) ∧
    (1996 ≤ year → year ≤ 2003 →
      resolve year DOY = some (urlsFor "epc" EARTHPROBE year DOY)) ∧
    (2004 ≤ year → year ≤ 2005 →
      resolve year DOY =
        some (urlsFor "omi" OMI year DOY ++ urlsFor "epc" EARTHPROBE year DOY)) ∧
    (2006 ≤ year → resolve year DOY = some (urlsFor "omi" OMI year DOY)) ∧
    (year = 1995 ∨ year < 1978 → resolve year DOY = none) :=
  resolveTable year DOY

/-- Witness for C1 at concrete years. -/
theorem claim_C1_witness :
    resolve 1985 1 = some (urlsFor "n7t" NIMBUS 1985 1) ∧ resolve 1995 1 = none :=
  ⟨(claim_C1 1985 1).1 (by decide) (by decide),
   (claim_C1 1995 1).2.2.2.2.2.2 (Or.inl rfl)⟩

set_option maxRecDepth 10000 in
theorem mdCode_succ_leap :
    ∀ d : Fin 366, 1 ≤ d.val → d.val + 1 ≤ 366 →
      mdCode true d.val < mdCode true (d.val + 1) := by decide

set_option maxRecDepth 10000 in
theorem mdCode_succ_noleap :
    ∀ d : Fin 366, 1 ≤ d.val → d.val + 1 ≤ 365 →
      mdCode false d.val < mdCode false (d.val + 1) := by decide

theorem mdCode_succ (leap : Bool) (d : Nat) (h1 : 1 ≤ d)
    (h2 : d + 1 ≤ (if leap then 366 else 365)) :
    mdCode leap d < mdCode leap (d + 1) := by
  cases leap
  · exact mdCode_succ_noleap ⟨d, by simp at h2; omega⟩ h1 (by simpa using h2)
  · exact mdCode_succ_leap ⟨d, by simp at h2; omega⟩ h1 (by simpa using h2)

theorem dateOfDoy_in_year (year doy : Nat) (h1 : 1 ≤ doy) (h2 : doy ≤ daysInYear year) :
    dateOfDoy year doy = (year, monthDayOf 1 (monthLengths (isLeapYear year)) doy) := by
  cases doy with
  | zero => omega
  | succ n =>
    have hlt : ¬ (daysInYear year < n + 1) := by omega
    show dateOfDoyGo (n + 1) year (n + 1) = _
    simp [dateOfDoyGo, hlt]

theorem dateNum_in_year (year doy : Nat) (h1 : 1 ≤ doy) (h2 : doy ≤ daysInYear year) :
    dateNum year doy = year * 10000 + mdCode (isLeapYear year) doy := by
  unfold dateNum mdCode
  rw [dateOfDoy_in_year year doy h1 h2]
  dsimp only
  omega

theorem daysInYear_eq_if (year : Nat) :
    daysInYear year = (if isLeapYear year then 366 else 365) := rfl

theorem daysInYear_ge (year : Nat) : 365 ≤ daysInYear year := by
  rw [daysInYear_eq_if]
  split <;> omega

theorem dateOfDoyGo_fuel (doy : Nat) : ∀ fuel1 fuel2 year, 1 ≤ doy →
    doy ≤ fuel1 → doy ≤ fuel2 →
    dateOfDoyGo fuel1 year doy = dateOfDoyGo fuel2 year doy := by
  induction doy using Nat.strong_induction_on with
  | _ doy ih =>
    intro fuel1 fuel2 year h1 hf1 hf2
    obtain ⟨f1, rfl⟩ : ∃ f, fuel1 = f + 1 := ⟨fuel1 - 1, by omega⟩
    obtain ⟨f2, rfl⟩ : ∃ f, fuel2 = f + 1 := ⟨fuel2 - 1, by omega⟩
    by_cases hroll : daysInYear year < doy
    · simp only [dateOfDoyGo, if_pos hroll]
      have hd := daysInYear_ge year
      exact ih (doy - daysInYear year) (by omega) f1 f2 (year + 1)
        (by omega) (by omega) (by omega)
    · simp only [dateOfDoyGo, if_neg hroll]

theorem dateOfDoy_roll (year doy : Nat) (h : daysInYear year < doy) :
    dateOfDoy year doy = dateOfDoy (year + 1) (doy - daysInYear year) := by
  have hd := daysInYear_ge year
  unfold dateOfDoy
  obtain ⟨f, rfl⟩ : ∃ f, doy = f + 1 := ⟨doy - 1, by omega⟩
  simp only [dateOfDoyGo, if_pos h]
  exact dateOfDoyGo_fuel (f + 1 - daysInYear year) f (f + 1 - daysInYear year)
    (year + 1) (by omega) (by omega) le_rfl

theorem dateNum_roll (year doy : Nat) (h : daysInYear year < doy) :
    dateNum year doy = dateNum (year + 1) (doy - daysInYear year) := by
  unfold dateNum
  rw [dateOfDoy_roll year doy h]

theorem mdCode_one : ∀ leap : Bool, mdCode leap 1 = 101 := by decide

theorem mdCode_last (year : Nat) :
    mdCode (isLeapYear year) (daysInYear year) = 1231 := by
  rw [daysInYear_eq_if]
  cases isLeapYear year <;> decide

theorem dateNum_succ : ∀ doy, ∀ year : Nat, 1 ≤ doy →
    dateNum year doy < dateNum year (doy + 1) := by
  intro doy
  induction doy using Nat.strong_induction_on with
  | _ doy ih =>
    intro year h1
    rcases Nat.lt_trichotomy doy (daysInYear year) with hlt | heq | hgt
    · rw [dateNum_in_year year doy h1 (by omega),
        dateNum_in_year year (doy + 1) (by omega) (by omega)]
      refine Nat.add_lt_add_left (mdCode_succ (isLeapYear year) doy h1 ?_) _
      rw [← daysInYear_eq_if]
      omega
    · have h2 : dateNum year (doy + 1) = dateNum (year + 1) 1 := by
        rw [dateNum_roll year (doy + 1) (by omega)]
        congr 1
        omega
      rw [dateNum_in_year year doy h1 (by omega), h2,
        dateNum_in_year (year + 1) 1 (by omega)
          (by have := daysInYear_ge (year + 1); omega),
        heq, mdCode_last year, mdCode_one]
      omega
    · have hd := daysInYear_ge year
      rw [dateNum_roll year doy (by omega), dateNum_roll year (doy + 1) (by omega),
        show doy + 1 - daysInYear year = (doy - daysInYear year) + 1 by omega]
      exact ih (doy - daysInYear year) (by omega) (year + 1) (by omega)

theorem dateNum_mono (year : Nat) : ∀ j i, 1 ≤ i → i < j →
    dateNum year i < dateNum year j := by
  intro j
  induction j with
  | zero => intro i h1 h2; omega
  | succ n ih =>
    intro i h1 h2
    rcases Nat.lt_or_ge i n with h | h
    · exact lt_trans (ih i h1 h) (dateNum_succ n year (by omega))
    · have hi : i = n := by omega
      subst hi
      exact dateNum_succ i year h1

set_option maxRecDepth 10000 in
theorem doyDateOk_leap :
    ∀ d : Fin 367, 1 ≤ d.val → d.val ≤ 366 → doyDateOk true d.val = true := by decide

set_option maxRecDepth 10000 in
theorem doyDateOk_noleap :
    ∀ d : Fin 367, 1 ≤ d.val → d.val ≤ 365 → doyDateOk false d.val = true := by decide

theorem doyDateOk_all (year doy : Nat) (h1 : 1 ≤ doy) (h2 : doy ≤ daysInYear year) :
    doyDateOk (isLeapYear year) doy = true := by
  have hb := h2
  rw [daysInYear_eq_if] at hb
  cases hL : isLeapYear year
  · rw [hL] at hb
    simp at hb
    exact doyDateOk_noleap ⟨doy, by omega⟩ h1 hb
  · rw [hL] at hb
    simp at hb
    exact doyDateOk_leap ⟨doy, by omega⟩ h1 hb

theorem isLeapYear_eq_spec (year : Nat) : isLeapYear year = leapSpec year := by
  unfold isLeapYear leapSpec
  by_cases h4 : year % 4 = 0 <;> by_cases h100 : year % 100 = 0 <;>
    by_cases h400 : year % 400 = 0 <;> simp [h4, h100, h400]

/-- C4: for every recognized instrument, every year and every day bound of
at least 1, buildURL returns exactly DOY URLs, the URL of position i being
the instrument base path followed by the filename
L3_ozone_(code)_(YYYYMMDD).txt for day-of-year i+1; the underlying dates
are strictly increasing, and the day-of-year to calendar-date conversion is
leap-year correct (divisible by 4, except centuries not divisible by
400). -/
theorem claim_C4 (type code s b : String) (year DOY : Nat)
    (hrec : (type, code) ∈ recognizedTypes) (hD1 : 1 ≤ DOY) :
    ∃ l, buildURL type s b year DOY = some l ∧
      l.length = DOY ∧
      (∀ i, i < DOY →
        l[i]? = some (s ++ b ++ toString year ++ "/" ++
          ("L3_ozone_" ++ code ++ "_" ++ dateStr year (1 + i) ++ ".txt"))) ∧
      (∀ i j, 1 ≤ i → i < j → j ≤ DOY → dateNum year i < dateNum year j) ∧
      isLeapYear year = leapSpec year ∧
      (∀ doy, 1 ≤ doy → doy ≤ daysInYear year →
        doyDateOk (isLeapYear year) doy = true) := by
  refine ⟨_, buildURL_rec type code hrec s b year DOY, ?_, ?_, ?_,
    isLeapYear_eq_spec year, ?_⟩
  · simp
  · intro i hi
    simp [hi]
  · intro i j hi hij _hj
    exact dateNum_mono year j i hi hij
  · intro doy hd1 hd2
    exact doyDateOk_all year doy hd1 hd2

/-- Witness for C4 on NIMBUS, leap year 2000, DOY bound 60. -/
theorem claim_C4_witness :
    ∃ l, buildURL "NIMBUS" SERVER_URL NIMBUS 2000 60 = some l ∧
      l.length = 60 ∧
      (∀ i, i < 60 →
        l[i]? = some (SERVER_URL ++ NIMBUS ++ toString 2000 ++ "/" ++
          ("L3_ozone_" ++ "n7t" ++ "_" ++ dateStr 2000 (1 + i) ++ ".txt"))) ∧
      (∀ i j, 1 ≤ i → i < j → j ≤ 60 → dateNum 2000 i < dateNum 2000 j) ∧
      isLeapYear 2000 = leapSpec 2000 ∧
      (∀ doy, 1 ≤ doy → doy ≤ daysInYear 2000 →
        doyDateOk (isLeapYear 2000) doy = true) :=
  claim_C4 "NIMBUS" "n7t" SERVER_URL NIMBUS 2000 60 (by decide) (by decide)

/-- C9: buildURL returns a list (never the None branch) for each of the
four recognized instrument type strings, for every year and day bound, so
the dsList-is-None warning branches inside resolve are unreachable, and
resolve returns None exactly for the years with no coverage: years before
1978 and 1995. -/
theorem claim_C9 (year DOY : Nat) :
    (∀ type code s b, (type, code) ∈ recognizedTypes →
      (buildURL type s b year DOY).isSome = true) ∧
    (resolve year DOY = none ↔ year < 1978 ∨ year = 1995) := by
  constructor
  · intro type code s b h
    rw [buildURL_rec type code h]
    rfl
  · constructor
    · intro hnone
      by_contra hc
      push_neg at hc
      obtain ⟨h1, h2⟩ := hc
      have tbl := resolveTable year DOY
      have hcase : (1978 ≤ year ∧ year ≤ 1990) ∨ (1991 ≤ year ∧ year ≤ 1993) ∨
          year = 1994 ∨ (1996 ≤ year ∧ year ≤ 2003) ∨
          (2004 ≤ year ∧ year ≤ 2005) ∨ 2006 ≤ year := by omega
      rcases hcase with h | h | h | h | h | h
      · rw [tbl.1 h.1 h.2] at hnone; exact Option.noConfusion hnone
      · rw [tbl.2.1 h.1 h.2] at hnone; exact Option.noConfusion hnone
      · rw [tbl.2.2.1 h] at hnone; exact Option.noConfusion hnone
      · rw [tbl.2.2.2.1 h.1 h.2] at hnone; exact Option.noConfusion hnone
      · rw [tbl.2.2.2.2.1 h.1 h.2] at hnone; exact Option.noConfusion hnone
      · rw [tbl.2.2.2.2.2.1 h] at hnone; exact Option.noConfusion hnone
    · intro h
      exact (resolveTable year DOY).2.2.2.2.2.2 (by omega)

/-- Witness for C9 at a concrete recognized instrument and year. -/
theorem claim_C9_witness :
    (buildURL "OMI" SERVER_URL OMI 2010 1).isSome = true ∧ resolve 1995 3 = none :=
  ⟨(claim_C9 2010 1).1 "OMI" "omi" SERVER_URL OMI (by decide),
   (claim_C9 1995 3).2.mpr (Or.inr rfl)⟩

theorem any_eq_isSome_find {α : Type} (p : α → Bool) (l : List α) :
    l.any p = (l.find? p).isSome := by
  induction l with
  | nil => rfl
  | cons a t ih =>
    by_cases h : p a = true <;> simp [List.any_cons, List.find?_cons, h, ih]

theorem resolveFile_eq_spec (l : List String) : resolveFile l = resolveFileSpec l := by
  unfold resolveFile resolveFileSpec tagMatchers
  rcases h1 : l.find? omiMatch with _ | f1 <;>
    rcases h2 : l.find? epcMatch with _ | f2 <;>
      rcases h3 : l.find? m3tMatch with _ | f3 <;>
        rcases h4 : l.find? n7tMatch with _ | f4 <;>
          simp [List.find?, any_eq_isSome_find, h1, h2, h3, h4]

theorem resolveFile_none_iff (l : List String) :
    resolveFile l = none ↔
      ∀ f ∈ l, (omiMatch f || epcMatch f || m3tMatch f || n7tMatch f) = false := by
  constructor
  · intro h f hf
    unfold resolveFile at h
    rcases h1 : l.find? omiMatch with _ | f1 <;> rw [h1] at h <;>
    [skip; exact Option.noConfusion h]
    rcases h2 : l.find? epcMatch with _ | f2 <;> rw [h2] at h <;>
    [skip; exact Option.noConfusion h]
    rcases h3 : l.find? m3tMatch with _ | f3 <;> rw [h3] at h <;>
    [skip; exact Option.noConfusion h]
    rcases h4 : l.find? n7tMatch with _ | f4 <;> rw [h4] at h <;>
    [skip; exact Option.noConfusion h]
    rw [List.find?_eq_none] at h1 h2 h3 h4
    simp [h1 f hf, h2 f hf, h3 f hf, h4 f hf]
  · intro h
    unfold resolveFile
    have h1 : l.find? omiMatch = none := by
      rw [List.find?_eq_none]
      intro f hf
      have := h f hf
      simp at this
      simp [this.1.1.1]
    have h2 : l.find? epcMatch = none := by
      rw [List.find?_eq_none]
      intro f hf
      have := h f hf
      simp at this
      simp [this.1.1.2]
    have h3 : l.find? m3tMatch = none := by
      rw [List.find?_eq_none]
      intro f hf
      have := h f hf
      simp at this
      simp [this.1.2]
    have h4 : l.find? n7tMatch = none := by
      rw [List.find?_eq_none]
      intro f hf
      have := h f hf
      simp at this
      simp [this.2]
    rw [h1, h2, h3, h4]

/-- C2: per-day file resolution with more than one candidate picks the
first file in list order whose tag matches the highest-priority recognized
instrument present, in the order OMI, EARTHPROBE, METEOR3, NIMBUS7
(`resolveFileSpec` is that rule written as the specification states it),
returning none exactly when no candidate matches any of the four patterns;
a single candidate is chosen unconditionally, whatever its tag. -/
theorem claim_C2 (l : List String) :
    (l.length = 1 → chooseDaily l = l.head?) ∧
    (1 < l.length →
      chooseDaily l = resolveFileSpec l ∧
      (chooseDaily l = none ↔
        ∀ f ∈ l, (omiMatch f || epcMatch f || m3tMatch f || n7tMatch f) = false)) := by
  constructor
  · intro h1
    unfold chooseDaily
    rw [if_neg (by omega), if_pos h1]
  · intro h2
    unfold chooseDaily
    rw [if_neg (by omega), if_neg (by omega)]
    exact ⟨resolveFile_eq_spec l, resolveFile_none_iff l⟩

/-- Witness for C2: among NIMBUS7, OMI and METEOR3 candidates the OMI file
wins; a single unrecognized candidate is returned as given. -/
theorem claim_C2_witness :
    chooseDaily ["L3_ozone_n7t_20050101.txt", "L3_ozone_omi_20050101.txt",
        "L3_ozone_m3t_20050101.txt"] = some "L3_ozone_omi_20050101.txt" ∧
    chooseDaily ["L3_ozone_xyz_20050101.txt"] = some "L3_ozone_xyz_20050101.txt" := by
  constructor
  · have h := (claim_C2 ["L3_ozone_n7t_20050101.txt", "L3_ozone_omi_20050101.txt",
      "L3_ozone_m3t_20050101.txt"]).2 (by decide)
    rw [h.1]
    decide
  · have h := (claim_C2 ["L3_ozone_xyz_20050101.txt"]).1 (by decide)
    rw [h]
    rfl

theorem urlEvents_allFail (succeeds : Nat → Bool) (h : ∀ n, succeeds n = false) :
    urlEvents succeeds = failTrace := by
  simp [urlEvents, retryLoop, failTrace, h]

/-- C3: for a URL whose every retrieval attempt fails, exactly 6 tool
invocations happen (the initial one plus 5 retries), each retry preceded by
a fixed 60-second sleep, followed by a warning; the batch attempts every URL
of the resolved list in order and the download routine returns SUCCESS for
the batch no matter how many URLs failed. -/
theorem claim_C3 (succeeds : String → Nat → Bool) (year DOY : Nat)
    (urls : List String) (hfail : ∀ u n, succeeds u n = false)
    (hres : resolve year DOY = some urls) :
    (downloadTomsRun year DOY succeeds).1 = SUCCESS ∧
    (downloadTomsRun year DOY succeeds).2.map Prod.fst = urls ∧
    ∀ p ∈ (downloadTomsRun year DOY succeeds).2,
      p.2 = failTrace ∧ p.2.countP isCallEv = 6 := by
  unfold downloadTomsRun
  rw [hres]
  refine ⟨rfl, ?_, ?_⟩
  · simp only [downloadLoop, List.map_map]
    have hcomp : (Prod.fst ∘ fun u : String => (u, urlEvents (succeeds u))) = id := rfl
    rw [hcomp, List.map_id]
  · intro p hp
    simp only [downloadLoop, List.mem_map] at hp
    obtain ⟨u, _, hpu⟩ := hp
    have hev := urlEvents_allFail (succeeds u) (hfail u)
    rw [← hpu]
    refine ⟨hev, ?_⟩
    rw [hev]
    show failTrace.countP isCallEv = 6
    decide

/-- Witness for C3 on the single URL of year 2010, day bound 1, with a
retrieval tool that always fails. -/
theorem claim_C3_witness :
    (downloadTomsRun 2010 1 fun _ _ => false).1 = SUCCESS ∧
    (downloadTomsRun 2010 1 fun _ _ => false).2.map Prod.fst =
      ["https://acd-ext.gsfc.nasa.gov/anonftp/toms/omi/data/ozone/Y2010/L3_ozone_omi_20100101.txt"] ∧
    ∀ p ∈ (downloadTomsRun 2010 1 fun _ _ => false).2,
      p.2 = failTrace ∧ p.2.countP isCallEv = 6 :=
  claim_C3 (fun _ _ => false) 2010 1
    ["https://acd-ext.gsfc.nasa.gov/anonftp/toms/omi/data/ozone/Y2010/L3_ozone_omi_20100101.txt"]
    (fun _ _ => rfl) (by decide)

/-- C5, settled against the code: the claimed iff fails on the year-loop
side.  A malformed invocation or an unset environment variable does return
the failure status (last two conjuncts), and years or days that are merely
skipped or fail with a warned ERROR status still end in SUCCESS (second and
third conjuncts: all days without data; a whole year without coverage; a
day whose candidates cannot be resolved).  But a well-formed invocation
with the environment set is not guaranteed success: a day with a single
unrecognized-tag candidate makes getOzoneSource raise the NameError of the
undefined logger, which propagates out of getTomsData and main and kills
the process with a failure exit (first conjunct), contradicting the claim
that success is returned in every such case. -/
theorem claim_C5 :
    mainFn 2020 2020 false false (some "/anc") 2020 1
        (fun _ _ => ["L3_ozone_xyz_20200101.txt"]) =
      Except.error PyExc.nameError ∧
    mainFn 2020 2020 false false (some "/anc") 2020 3 (fun _ _ => []) =
      Except.ok (SUCCESS, some (2020, 2020)) ∧
    mainFn 1995 1995 false false (some "/anc") 2020 1 (fun _ _ => []) =
      Except.ok (SUCCESS, some (1995, 1995)) ∧
    mainFn 2020 2020 false false (some "/anc") 2020 2
        (fun _ _ => ["a_20200101.txt", "b_20200101.txt"]) =
      Except.ok (SUCCESS, some (2020, 2020)) ∧
    mainFn 0 2020 false false (some "/anc") 2020 1 (fun _ _ => []) =
      Except.ok (ERROR, none) ∧
    mainFn 2020 2020 false false none 2020 1 (fun _ _ => []) =
      Except.ok (ERROR, none) := by
  exact ⟨rfl, rfl, rfl, rfl, rfl, rfl⟩

/-- C8: in most-recent mode the selected range ends at the current year and
starts at the previous year exactly when the current day-of-year is at most
31; in particular on day-of-year 15 the range is the previous year through
the current year. -/
theorem claim_C8 (syear eyear : Int) (quarterly : Bool) (nowYear nowDoy : Nat) :
    selectYears syear eyear true quarterly nowYear nowDoy =
      ((if nowDoy ≤ 31 then (nowYear : Int) - 1 else (nowYear : Int)),
        (nowYear : Int)) ∧
    selectYears syear eyear true quarterly nowYear 15 =
      ((nowYear : Int) - 1, (nowYear : Int)) := by
  constructor
  · by_cases h : nowDoy ≤ 31 <;> simp [selectYears, h]
  · simp [selectYears]

/-- C6, settled against the code: a day whose single staged candidate has
an unrecognized instrument tag does not get logged and skipped — the tag
classification raises an exception (line 299 refers to a name `logger` that
is not defined in any scope of getOzoneSource), which propagates out of
getTomsData and terminates the run, contradicting the claimed
log-warning-and-continue behaviour.  Multi-candidate days with no
recognized tag are skipped as claimed, but this single-candidate case is
not. -/
theorem claim_C6 :
    processDay ["L3_ozone_xyz_20200101.txt"] = DayStep.raised PyExc.nameError := by
  decide

set_option maxRecDepth 10000 in
theorem pad3Len : ∀ x : Fin 1000, (pad3 x.val).length = 3 := by decide

/-- C7: the canonical output file is named from the output directory, the
year and the zero-padded day-of-year (`pad3` always yields three digits for
day numbers below 1000); when a file of that name exists, the conversion
step removes it before invoking the converter; applying the step to a
directory listing leaves exactly one copy of the canonical name when the
converter succeeds, and none of the old copy when it fails, so re-running a
year overwrites rather than accumulates. -/
theorem claim_C7 (outputDir dloaddir tomsfile ozoneSource : String)
    (year doy : Nat) (files : List String) :
    convertActs outputDir dloaddir tomsfile ozoneSource year doy true =
      [FsAct.remove (fullOutputName outputDir year doy),
       FsAct.exec ("convert_ozone " ++ (dloaddir ++ "/" ++ tomsfile) ++ " " ++
         fullOutputName outputDir year doy ++ " " ++ ozoneSource)] ∧
    convertActs outputDir dloaddir tomsfile ozoneSource year doy false =
      [FsAct.exec ("convert_ozone " ++ (dloaddir ++ "/" ++ tomsfile) ++ " " ++
         fullOutputName outputDir year doy ++ " " ++ ozoneSource)] ∧
    (applyDay files outputDir year doy true).count
      (fullOutputName outputDir year doy) = 1 ∧
    (applyDay files outputDir year doy false).count
      (fullOutputName outputDir year doy) = 0 ∧
    (∀ d, d < 1000 → (pad3 d).length = 3) := by
  have hfilter : ∀ fs : List String,
      (fs.filter fun f => f ≠ fullOutputName outputDir year doy).count
        (fullOutputName outputDir year doy) = 0 := by
    intro fs
    rw [List.count_eq_zero]
    intro hmem
    rcases List.mem_filter.mp hmem with ⟨_, hne⟩
    simp at hne
  refine ⟨rfl, rfl, ?_, ?_, ?_⟩
  · show (List.filter (fun f => f ≠ fullOutputName outputDir year doy) files ++
        [fullOutputName outputDir year doy]).count (fullOutputName outputDir year doy) = 1
    rw [List.count_append, hfilter files]
    simp
  · exact hfilter files
  · intro d hd
    exact pad3Len ⟨d, hd⟩

/-- Witness for C7: three-digit zero padding at a concrete day-of-year,
through the padding conjunct of the claim theorem. -/
theorem claim_C7_witness : (pad3 7).length = 3 :=
  (claim_C7 "/anc/EP_TOMS/ozone_2005" "/tmp/ep_toms/2005" "L3_ozone_epc_20050107.txt"
    "EARTHPROBE" 2005 7 []).2.2.2.2 7 (by decide)

/-- C10: getOzoneSource never reaches its documented return-None error
path: fewer than three underscore-separated fields raise IndexError at
`parts[2]`, an unrecognized third field raises NameError at the undefined
`logger` before the `return None` line, and a normal return happens exactly
for the four recognized instrument codes. -/
theorem claim_C10 (filename : String) :
    getOzoneSource filename ≠ Except.ok none ∧
    ((splitFields '_' filename.toList).length < 3 →
      getOzoneSource filename = Except.error PyExc.indexError) ∧
    ∀ h : 2 < (splitFields '_' filename.toList).length,
      ((splitFields '_' filename.toList).get ⟨2, h⟩ ∉
          (["m3t".toList, "epc".toList, "n7t".toList, "omi".toList] :
            List (List Char)) →
        getOzoneSource filename = Except.error PyExc.nameError) ∧
      ((splitFields '_' filename.toList).get ⟨2, h⟩ ∈
          (["m3t".toList, "epc".toList, "n7t".toList, "omi".toList] :
            List (List Char)) →
        ∃ src, getOzoneSource filename = Except.ok (some src)) := by
  by_cases h3 : 2 < (splitFields '_' filename.toList).length
  · refine ⟨?_, fun hlen => absurd h3 (by omega), fun h => ⟨?_, ?_⟩⟩
    · unfold getOzoneSource
      rw [dif_pos h3]
      split_ifs <;> simp
    · intro hni
      simp only [List.mem_cons, List.not_mem_nil, or_false, not_or] at hni
      unfold getOzoneSource
      rw [dif_pos h3]
      rw [if_neg hni.1, if_neg hni.2.1, if_neg hni.2.2.1, if_neg hni.2.2.2]
    · intro hin
      have hin4 : (splitFields '_' filename.toList).get ⟨2, h3⟩ = "m3t".toList ∨
          (splitFields '_' filename.toList).get ⟨2, h3⟩ = "epc".toList ∨
          (splitFields '_' filename.toList).get ⟨2, h3⟩ = "n7t".toList ∨
          (splitFields '_' filename.toList).get ⟨2, h3⟩ = "omi".toList := by
        simpa using hin
      unfold getOzoneSource
      rw [dif_pos h3]
      rcases hin4 with hc | hc | hc | hc
      · exact ⟨"METEOR3", by rw [if_pos hc]⟩
      · have h1 : (splitFields '_' filename.toList).get ⟨2, h3⟩ ≠ "m3t".toList := by
          rw [hc]; decide
        exact ⟨"EARTHPROBE", by rw [if_neg h1, if_pos hc]⟩
      · have h1 : (splitFields '_' filename.toList).get ⟨2, h3⟩ ≠ "m3t".toList := by
          rw [hc]; decide
        have h2 : (splitFields '_' filename.toList).get ⟨2, h3⟩ ≠ "epc".toList := by
          rw [hc]; decide
        exact ⟨"NIMBUS7", by rw [if_neg h1, if_neg h2, if_pos hc]⟩
      · have h1 : (splitFields '_' filename.toList).get ⟨2, h3⟩ ≠ "m3t".toList := by
          rw [hc]; decide
        have h2 : (splitFields '_' filename.toList).get ⟨2, h3⟩ ≠ "epc".toList := by
          rw [hc]; decide
        have hn : (splitFields '_' filename.toList).get ⟨2, h3⟩ ≠ "n7t".toList := by
          rw [hc]; decide
        exact ⟨"OMI", by rw [if_neg h1, if_neg h2, if_neg hn, if_pos hc]⟩
  · have he : getOzoneSource filename = Except.error PyExc.indexError := by
      unfold getOzoneSource
      rw [dif_neg h3]
    exact ⟨by rw [he]; simp, fun _ => he, fun h => absurd h h3⟩

/-- Witness for C10 on a short filename and a recognized one. -/
theorem claim_C10_witness :
    getOzoneSource "ozone.txt" = Except.error PyExc.indexError ∧
    ∃ src, getOzoneSource "L3_ozone_omi_20200101.txt" = Except.ok (some src) :=
  ⟨(claim_C10 "ozone.txt").2.1 (by decide),
   ((claim_C10 "L3_ozone_omi_20200101.txt").2.2 (by decide)).2 (by decide)⟩

end UpdateToms
